import Mathlib

/-!
Shallow embedding of `get_problems.py`: a static problem registry
(`PROBLEMS`), a task-type descriptor table (`TASK_TYPES`), and three
exporters (`save_to_json`, `save_to_csv`, `save_to_txt`), together with a
CSV parser used to state round-trip properties of the CSV exporter.
-/

/-- A registry record as literally written in the Python source: eleven
mandatory string fields plus an optional `deployment` key. -/
structure RawProblem where
  id : String
  task : String
  app : String
  «namespace» : String
  faulty_service : String
  fault_type : String
  fault_description : String
  workload : String
  expected_solution : String
  system_level : String
  fault_category : String
  deployment : Option String
deriving Repr, DecidableEq

/-- A registry record after the module-load pass that fills in the default
`deployment` value: all twelve fields present. -/
structure ProblemRecord where
  id : String
  task : String
  app : String
  «namespace» : String
  faulty_service : String
  fault_type : String
  fault_description : String
  workload : String
  expected_solution : String
  system_level : String
  fault_category : String
  deployment : String
deriving Repr, DecidableEq

/-- The module-load pass `for p in PROBLEMS: if "deployment" not in p:
p["deployment"] = "k8s"`, applied to one record. -/
def addDefaultDeployment (p : RawProblem) : ProblemRecord :=
  { id := p.id
    task := p.task
    app := p.app
    «namespace» := p.«namespace»
    faulty_service := p.faulty_service
    fault_type := p.fault_type
    fault_description := p.fault_description
    workload := p.workload
    expected_solution := p.expected_solution
    system_level := p.system_level
    fault_category := p.fault_category
    deployment := p.deployment.getD "k8s" }

/-- One entry of the `TASK_TYPES` table. -/
structure TaskTypeInfo where
  description : String
  expected_solution_format : String
  metric : String
  system_levels : Option (List String)
  fault_types : Option (List String)
deriving Repr, DecidableEq

/-- The `TASK_TYPES` dict of the source, in declaration order. -/
def TASK_TYPES : List (String × TaskTypeInfo) :=
  [ ("detection",
     { description := "Detect anomalies in a deployed service"
       expected_solution_format := "str: \"Yes\" or \"No\""
       metric := "TTD (Time To Detect)"
       system_levels := none
       fault_types := none }),
    ("localization",
     { description := "Identify the service(s) where the root cause of the fault lies"
       expected_solution_format := "list[str]: list of faulty service names"
       metric := "TTL (Time To Localize)"
       system_levels := none
       fault_types := none }),
    ("analysis",
     { description := "Root cause analysis - identify system level and fault type"
       expected_solution_format := "dict: \x7b\"system_level\": \"...\", \"fault_type\": \"...\"\x7d"
       metric := "TTA (Time To Analyze)"
       system_levels := some ["Hardware", "Operating System", "Virtualization", "Application"]
       fault_types := some ["Misconfiguration", "Code Defect", "Authentication Issue",
                            "Network/Storage Issue", "Operation Error", "Dependency Problem"] }),
    ("mitigation",
     { description := "Mitigate/fix the detected anomaly"
       expected_solution_format := "None (verified by system status check)"
       metric := "TTM (Time To Mitigate)"
       system_levels := none
       fault_types := none }) ]

set_option maxHeartbeats 4000000 in
def PROBLEMS_raw : List RawProblem := [
  { 
    id := "k8s_target_port-misconfig-detection-1",
    task := "detection",
    app := "Social Network",
    «namespace» := "social-network",
    faulty_service := "user-service",
    fault_type := "misconfig_k8s",
    fault_description := "K8s service target port misconfiguration",
    workload := "socialNetwork/wrk2/scripts/social-network/compose-post.lua",
    expected_solution := "Yes",
    system_level := "Virtualization",
    fault_category := "Misconfiguration",
    deployment := none
 },
  { 
    id := "k8s_target_port-misconfig-localization-1",
    task := "localization",
    app := "Social Network",
    «namespace» := "social-network",
    faulty_service := "user-service",
    fault_type := "misconfig_k8s",
    fault_description := "K8s service target port misconfiguration",
    workload := "socialNetwork/wrk2/scripts/social-network/compose-post.lua",
    expected_solution := "[\"user-service\"]",
    system_level := "Virtualization",
    fault_category := "Misconfiguration",
    deployment := none
 },
  { 
    id := "k8s_target_port-misconfig-analysis-1",
    task := "analysis",
    app := "Social Network",
    «namespace» := "social-network",
    faulty_service := "user-service",
    fault_type := "misconfig_k8s",
    fault_description := "K8s service target port misconfiguration",
    workload := "socialNetwork/wrk2/scripts/social-network/compose-post.lua",
    expected_solution := "\x7b\"system_level\": \"Virtualization\", \"fault_type\": \"Misconfiguration\"\x7d",
    system_level := "Virtualization",
    fault_category := "Misconfiguration",
    deployment := none
 },
  { 
    id := "k8s_target_port-misconfig-mitigation-1",
    task := "mitigation",
    app := "Social Network",
    «namespace» := "social-network",
    faulty_service := "user-service",
    fault_type := "misconfig_k8s",
    fault_description := "K8s service target port misconfiguration",
    workload := "socialNetwork/wrk2/scripts/social-network/compose-post.lua",
    expected_solution := "Reset target port to 9090, all pods Running",
    system_level := "Virtualization",
    fault_category := "Misconfiguration",
    deployment := none
 },
  { 
    id := "k8s_target_port-misconfig-detection-2",
    task := "detection",
    app := "Social Network",
    «namespace» := "social-network",
    faulty_service := "text-service",
    fault_type := "misconfig_k8s",
    fault_description := "K8s service target port misconfiguration",
    workload := "socialNetwork/wrk2/scripts/social-network/compose-post.lua",
    expected_solution := "Yes",
    system_level := "Virtualization",
    fault_category := "Misconfiguration",
    deployment := none
 },
  { 
    id := "k8s_target_port-misconfig-localization-2",
    task := "localization",
    app := "Social Network",
    «namespace» := "social-network",
    faulty_service := "text-service",
    fault_type := "misconfig_k8s",
    fault_description := "K8s service target port misconfiguration",
    workload := "socialNetwork/wrk2/scripts/social-network/compose-post.lua",
    expected_solution := "[\"text-service\"]",
    system_level := "Virtualization",
    fault_category := "Misconfiguration",
    deployment := none
 },
  { 
    id := "k8s_target_port-misconfig-analysis-2",
    task := "analysis",
    app := "Social Network",
    «namespace» := "social-network",
    faulty_service := "text-service",
    fault_type := "misconfig_k8s",
    fault_description := "K8s service target port misconfiguration",
    workload := "socialNetwork/wrk2/scripts/social-network/compose-post.lua",
    expected_solution := "\x7b\"system_level\": \"Virtualization\", \"fault_type\": \"Misconfiguration\"\x7d",
    system_level := "Virtualization",
    fault_category := "Misconfiguration",
    deployment := none
 },
  { 
    id := "k8s_target_port-misconfig-mitigation-2",
    task := "mitigation",
    app := "Social Network",
    «namespace» := "social-network",
    faulty_service := "text-service",
    fault_type := "misconfig_k8s",
    fault_description := "K8s service target port misconfiguration",
    workload := "socialNetwork/wrk2/scripts/social-network/compose-post.lua",
    expected_solution := "Reset target port to 9090, all pods Running",
    system_level := "Virtualization",
    fault_category := "Misconfiguration",
    deployment := none
 },
  { 
    id := "k8s_target_port-misconfig-detection-3",
    task := "detection",
    app := "Social Network",
    «namespace» := "social-network",
    faulty_service := "post-storage-service",
    fault_type := "misconfig_k8s",
    fault_description := "K8s service target port misconfiguration",
    workload := "socialNetwork/wrk2/scripts/social-network/compose-post.lua",
    expected_solution := "Yes",
    system_level := "Virtualization",
    fault_category := "Misconfiguration",
    deployment := none
 },
  { 
    id := "k8s_target_port-misconfig-localization-3",
    task := "localization",
    app := "Social Network",
    «namespace» := "social-network",
    faulty_service := "post-storage-service",
    fault_type := "misconfig_k8s",
    fault_description := "K8s service target port misconfiguration",
    workload := "socialNetwork/wrk2/scripts/social-network/compose-post.lua",
    expected_solution := "[\"post-storage-service\"]",
    system_level := "Virtualization",
    fault_category := "Misconfiguration",
    deployment := none
 },
  { 
    id := "k8s_target_port-misconfig-analysis-3",
    task := "analysis",
    app := "Social Network",
    «namespace» := "social-network",
    faulty_service := "post-storage-service",
    fault_type := "misconfig_k8s",
    fault_description := "K8s service target port misconfiguration",
    workload := "socialNetwork/wrk2/scripts/social-network/compose-post.lua",
    expected_solution := "\x7b\"system_level\": \"Virtualization\", \"fault_type\": \"Misconfiguration\"\x7d",
    system_level := "Virtualization",
    fault_category := "Misconfiguration",
    deployment := none
 },
  { 
    id := "k8s_target_port-misconfig-mitigation-3",
    task := "mitigation",
    app := "Social Network",
    «namespace» := "social-network",
    faulty_service := "post-storage-service",
    fault_type := "misconfig_k8s",
    fault_description := "K8s service target port misconfiguration",
    workload := "socialNetwork/wrk2/scripts/social-network/compose-post.lua",
    expected_solution := "Reset target port to 9090, all pods Running",
    system_level := "Virtualization",
    fault_category := "Misconfiguration",
    deployment := none
 },
  { 
    id := "auth_miss_mongodb-detection-1",
    task := "detection",
    app := "Hotel Reservation",
    «namespace» := "hotel-reserv",
    faulty_service := "mongodb-rate",
    fault_type := "auth_missing",
    fault_description := "MongoDB authentication credentials missing",
    workload := "hotelReservation/wrk2/scripts/hotel-reservation/mixed-workload_type_1.lua",
    expected_solution := "Yes",
    system_level := "Application",
    fault_category := "Authentication Issue",
    deployment := none
 },
  { 
    id := "auth_miss_mongodb-localization-1",
    task := "localization",
    app := "Hotel Reservation",
    «namespace» := "hotel-reserv",
    faulty_service := "mongodb-rate",
    fault_type := "auth_missing",
    fault_description := "MongoDB authentication credentials missing",
    workload := "hotelReservation/wrk2/scripts/hotel-reservation/mixed-workload_type_1.lua",
    expected_solution := "[\"mongodb-rate\"]",
    system_level := "Application",
    fault_category := "Authentication Issue",
    deployment := none
 },
  { 
    id := "auth_miss_mongodb-analysis-1",
    task := "analysis",
    app := "Hotel Reservation",
    «namespace» := "hotel-reserv",
    faulty_service := "mongodb-rate",
    fault_type := "auth_missing",
    fault_description := "MongoDB authentication credentials missing",
    workload := "hotelReservation/wrk2/scripts/hotel-reservation/mixed-workload_type_1.lua",
    expected_solution := "\x7b\"system_level\": \"Application\", \"fault_type\": \"Authentication Issue\"\x7d",
    system_level := "Application",
    fault_category := "Authentication Issue",
    deployment := none
 },
  { 
    id := "auth_miss_mongodb-mitigation-1",
    task := "mitigation",
    app := "Hotel Reservation",
    «namespace» := "hotel-reserv",
    faulty_service := "mongodb-rate",
    fault_type := "auth_missing",
    fault_description := "MongoDB authentication credentials missing",
    workload := "hotelReservation/wrk2/scripts/hotel-reservation/mixed-workload_type_1.lua",
    expected_solution := "Restore MongoDB authentication, all pods Running",
    system_level := "Application",
    fault_category := "Authentication Issue",
    deployment := none
 },
  { 
    id := "revoke_auth_mongodb-detection-1",
    task := "detection",
    app := "Hotel Reservation",
    «namespace» := "hotel-reserv",
    faulty_service := "mongodb-geo",
    fault_type := "auth_revoke",
    fault_description := "MongoDB authentication revoked",
    workload := "hotelReservation/wrk2/scripts/hotel-reservation/mixed-workload_type_1.lua",
    expected_solution := "Yes",
    system_level := "Application",
    fault_category := "Authentication Issue",
    deployment := none
 },
  { 
    id := "revoke_auth_mongodb-localization-1",
    task := "localization",
    app := "Hotel Reservation",
    «namespace» := "hotel-reserv",
    faulty_service := "mongodb-geo",
    fault_type := "auth_revoke",
    fault_description := "MongoDB authentication revoked",
    workload := "hotelReservation/wrk2/scripts/hotel-reservation/mixed-workload_type_1.lua",
    expected_solution := "[\"mongodb-geo\"]",
    system_level := "Application",
    fault_category := "Authentication Issue",
    deployment := none
 },
  { 
    id := "revoke_auth_mongodb-analysis-1",
    task := "analysis",
    app := "Hotel Reservation",
    «namespace» := "hotel-reserv",
    faulty_service := "mongodb-geo",
    fault_type := "auth_revoke",
    fault_description := "MongoDB authentication revoked",
    workload := "hotelReservation/wrk2/scripts/hotel-reservation/mixed-workload_type_1.lua",
    expected_solution := "\x7b\"system_level\": \"Application\", \"fault_type\": \"Authentication Issue\"\x7d",
    system_level := "Application",
    fault_category := "Authentication Issue",
    deployment := none
 },
  { 
    id := "revoke_auth_mongodb-mitigation-1",
    task := "mitigation",
    app := "Hotel Reservation",
    «namespace» := "hotel-reserv",
    faulty_service := "mongodb-geo",
    fault_type := "auth_revoke",
    fault_description := "MongoDB authentication revoked",
    workload := "hotelReservation/wrk2/scripts/hotel-reservation/mixed-workload_type_1.lua",
    expected_solution := "Restore MongoDB authentication, all pods Running",
    system_level := "Application",
    fault_category := "Authentication Issue",
    deployment := none
 },
  { 
    id := "revoke_auth_mongodb-detection-2",
    task := "detection",
    app := "Hotel Reservation",
    «namespace» := "hotel-reserv",
    faulty_service := "mongodb-rate",
    fault_type := "auth_revoke",
    fault_description := "MongoDB authentication revoked",
    workload := "hotelReservation/wrk2/scripts/hotel-reservation/mixed-workload_type_1.lua",
    expected_solution := "Yes",
    system_level := "Application",
    fault_category := "Authentication Issue",
    deployment := none
 },
  { 
    id := "revoke_auth_mongodb-localization-2",
    task := "localization",
    app := "Hotel Reservation",
    «namespace» := "hotel-reserv",
    faulty_service := "mongodb-rate",
    fault_type := "auth_revoke",
    fault_description := "MongoDB authentication revoked",
    workload := "hotelReservation/wrk2/scripts/hotel-reservation/mixed-workload_type_1.lua",
    expected_solution := "[\"mongodb-rate\"]",
    system_level := "Application",
    fault_category := "Authentication Issue",
    deployment := none
 },
  { 
    id := "revoke_auth_mongodb-analysis-2",
    task := "analysis",
    app := "Hotel Reservation",
    «namespace» := "hotel-reserv",
    faulty_service := "mongodb-rate",
    fault_type := "auth_revoke",
    fault_description := "MongoDB authentication revoked",
    workload := "hotelReservation/wrk2/scripts/hotel-reservation/mixed-workload_type_1.lua",
    expected_solution := "\x7b\"system_level\": \"Application\", \"fault_type\": \"Authentication Issue\"\x7d",
    system_level := "Application",
    fault_category := "Authentication Issue",
    deployment := none
 },
  { 
    id := "revoke_auth_mongodb-mitigation-2",
    task := "mitigation",
    app := "Hotel Reservation",
    «namespace» := "hotel-reserv",
    faulty_service := "mongodb-rate",
    fault_type := "auth_revoke",
    fault_description := "MongoDB authentication revoked",
    workload := "hotelReservation/wrk2/scripts/hotel-reservation/mixed-workload_type_1.lua",
    expected_solution := "Restore MongoDB authentication, all pods Running",
    system_level := "Application",
    fault_category := "Authentication Issue",
    deployment := none
 },
  { 
    id := "user_unregistered_mongodb-detection-1",
    task := "detection",
    app := "Hotel Reservation",
    «namespace» := "hotel-reserv",
    faulty_service := "mongodb-geo",
    fault_type := "user_unregistered",
    fault_description := "MongoDB user unregistered/deleted",
    workload := "hotelReservation/wrk2/scripts/hotel-reservation/mixed-workload_type_1.lua",
    expected_solution := "Yes",
    system_level := "Application",
    fault_category := "Authentication Issue",
    deployment := none
 },
  { 
    id := "user_unregistered_mongodb-localization-1",
    task := "localization",
    app := "Hotel Reservation",
    «namespace» := "hotel-reserv",
    faulty_service := "mongodb-geo",
    fault_type := "user_unregistered",
    fault_description := "MongoDB user unregistered/deleted",
    workload := "hotelReservation/wrk2/scripts/hotel-reservation/mixed-workload_type_1.lua",
    expected_solution := "[\"mongodb-geo\"]",
    system_level := "Application",
    fault_category := "Authentication Issue",
    deployment := none
 },
  { 
    id := "user_unregistered_mongodb-analysis-1",
    task := "analysis",
    app := "Hotel Reservation",
    «namespace» := "hotel-reserv",
    faulty_service := "mongodb-geo",
    fault_type := "user_unregistered",
    fault_description := "MongoDB user unregistered/deleted",
    workload := "hotelReservation/wrk2/scripts/hotel-reservation/mixed-workload_type_1.lua",
    expected_solution := "\x7b\"system_level\": \"Application\", \"fault_type\": \"Authentication Issue\"\x7d",
    system_level := "Application",
    fault_category := "Authentication Issue",
    deployment := none
 },
  { 
    id := "user_unregistered_mongodb-mitigation-1",
    task := "mitigation",
    app := "Hotel Reservation",
    «namespace» := "hotel-reserv",
    faulty_service := "mongodb-geo",
    fault_type := "user_unregistered",
    fault_description := "MongoDB user unregistered/deleted",
    workload := "hotelReservation/wrk2/scripts/hotel-reservation/mixed-workload_type_1.lua",
    expected_solution := "Re-register MongoDB user, all pods Running",
    system_level := "Application",
    fault_category := "Authentication Issue",
    deployment := none
 },
  { 
    id := "user_unregistered_mongodb-detection-2",
    task := "detection",
    app := "Hotel Reservation",
    «namespace» := "hotel-reserv",
    faulty_service := "mongodb-rate",
    fault_type := "user_unregistered",
    fault_description := "MongoDB user unregistered/deleted",
    workload := "hotelReservation/wrk2/scripts/hotel-reservation/mixed-workload_type_1.lua",
    expected_solution := "Yes",
    system_level := "Application",
    fault_category := "Authentication Issue",
    deployment := none
 },
  { 
    id := "user_unregistered_mongodb-localization-2",
    task := "localization",
    app := "Hotel Reservation",
    «namespace» := "hotel-reserv",
    faulty_service := "mongodb-rate",
    fault_type := "user_unregistered",
    fault_description := "MongoDB user unregistered/deleted",
    workload := "hotelReservation/wrk2/scripts/hotel-reservation/mixed-workload_type_1.lua",
    expected_solution := "[\"mongodb-rate\"]",
    system_level := "Application",
    fault_category := "Authentication Issue",
    deployment := none
 },
  { 
    id := "user_unregistered_mongodb-analysis-2",
    task := "analysis",
    app := "Hotel Reservation",
    «namespace» := "hotel-reserv",
    faulty_service := "mongodb-rate",
    fault_type := "user_unregistered",
    fault_description := "MongoDB user unregistered/deleted",
    workload := "hotelReservation/wrk2/scripts/hotel-reservation/mixed-workload_type_1.lua",
    expected_solution := "\x7b\"system_level\": \"Application\", \"fault_type\": \"Authentication Issue\"\x7d",
    system_level := "Application",
    fault_category := "Authentication Issue",
    deployment := none
 },
  { 
    id := "user_unregistered_mongodb-mitigation-2",
    task := "mitigation",
    app := "Hotel Reservation",
    «namespace» := "hotel-reserv",
    faulty_service := "mongodb-rate",
    fault_type := "user_unregistered",
    fault_description := "MongoDB user unregistered/deleted",
    workload := "hotelReservation/wrk2/scripts/hotel-reservation/mixed-workload_type_1.lua",
    expected_solution := "Re-register MongoDB user, all pods Running",
    system_level := "Application",
    fault_category := "Authentication Issue",
    deployment := none
 },
  { 
    id := "misconfig_app_hotel_res-detection-1",
    task := "detection",
    app := "Hotel Reservation",
    «namespace» := "hotel-reserv",
    faulty_service := "frontend",
    fault_type := "app_misconfig",
    fault_description := "Application misconfiguration in frontend",
    workload := "hotelReservation/wrk2/scripts/hotel-reservation/mixed-workload_type_1.lua",
    expected_solution := "Yes",
    system_level := "Application",
    fault_category := "Misconfiguration",
    deployment := none
 },
  { 
    id := "misconfig_app_hotel_res-localization-1",
    task := "localization",
    app := "Hotel Reservation",
    «namespace» := "hotel-reserv",
    faulty_service := "frontend",
    fault_type := "app_misconfig",
    fault_description := "Application misconfiguration in frontend",
    workload := "hotelReservation/wrk2/scripts/hotel-reservation/mixed-workload_type_1.lua",
    expected_solution := "[\"frontend\"]",
    system_level := "Application",
    fault_category := "Misconfiguration",
    deployment := none
 },
  { 
    id := "misconfig_app_hotel_res-analysis-1",
    task := "analysis",
    app := "Hotel Reservation",
    «namespace» := "hotel-reserv",
    faulty_service := "frontend",
    fault_type := "app_misconfig",
    fault_description := "Application misconfiguration in frontend",
    workload := "hotelReservation/wrk2/scripts/hotel-reservation/mixed-workload_type_1.lua",
    expected_solution := "\x7b\"system_level\": \"Application\", \"fault_type\": \"Misconfiguration\"\x7d",
    system_level := "Application",
    fault_category := "Misconfiguration",
    deployment := none
 },
  { 
    id := "misconfig_app_hotel_res-mitigation-1",
    task := "mitigation",
    app := "Hotel Reservation",
    «namespace» := "hotel-reserv",
    faulty_service := "frontend",
    fault_type := "app_misconfig",
    fault_description := "Application misconfiguration in frontend",
    workload := "hotelReservation/wrk2/scripts/hotel-reservation/mixed-workload_type_1.lua",
    expected_solution := "Fix configuration, all pods Running",
    system_level := "Application",
    fault_category := "Misconfiguration",
    deployment := none
 },
  { 
    id := "scale_pod_zero_social_net-detection-1",
    task := "detection",
    app := "Social Network",
    «namespace» := "social-network",
    faulty_service := "compose-post-service",
    fault_type := "scale_pod_zero",
    fault_description := "Pod scaled to zero replicas",
    workload := "socialNetwork/wrk2/scripts/social-network/compose-post.lua",
    expected_solution := "Yes",
    system_level := "Virtualization",
    fault_category := "Operation Error",
    deployment := none
 },
  { 
    id := "scale_pod_zero_social_net-localization-1",
    task := "localization",
    app := "Social Network",
    «namespace» := "social-network",
    faulty_service := "compose-post-service",
    fault_type := "scale_pod_zero",
    fault_description := "Pod scaled to zero replicas",
    workload := "socialNetwork/wrk2/scripts/social-network/compose-post.lua",
    expected_solution := "[\"compose-post-service\"]",
    system_level := "Virtualization",
    fault_category := "Operation Error",
    deployment := none
 },
  { 
    id := "scale_pod_zero_social_net-analysis-1",
    task := "analysis",
    app := "Social Network",
    «namespace» := "social-network",
    faulty_service := "compose-post-service",
    fault_type := "scale_pod_zero",
    fault_description := "Pod scaled to zero replicas",
    workload := "socialNetwork/wrk2/scripts/social-network/compose-post.lua",
    expected_solution := "\x7b\"system_level\": \"Virtualization\", \"fault_type\": \"Operation Error\"\x7d",
    system_level := "Virtualization",
    fault_category := "Operation Error",
    deployment := none
 },
  { 
    id := "scale_pod_zero_social_net-mitigation-1",
    task := "mitigation",
    app := "Social Network",
    «namespace» := "social-network",
    faulty_service := "compose-post-service",
    fault_type := "scale_pod_zero",
    fault_description := "Pod scaled to zero replicas",
    workload := "socialNetwork/wrk2/scripts/social-network/compose-post.lua",
    expected_solution := "Scale pod back to 1+, all pods Running",
    system_level := "Virtualization",
    fault_category := "Operation Error",
    deployment := none
 },
  { 
    id := "assign_to_non_existent_node_social_net-detection-1",
    task := "detection",
    app := "Social Network",
    «namespace» := "social-network",
    faulty_service := "compose-post-service",
    fault_type := "assign_non_existent_node",
    fault_description := "Pod assigned to non-existent node",
    workload := "socialNetwork/wrk2/scripts/social-network/compose-post.lua",
    expected_solution := "Yes",
    system_level := "Virtualization",
    fault_category := "Misconfiguration",
    deployment := none
 },
  { 
    id := "assign_to_non_existent_node_social_net-localization-1",
    task := "localization",
    app := "Social Network",
    «namespace» := "social-network",
    faulty_service := "compose-post-service",
    fault_type := "assign_non_existent_node",
    fault_description := "Pod assigned to non-existent node",
    workload := "socialNetwork/wrk2/scripts/social-network/compose-post.lua",
    expected_solution := "[\"compose-post-service\"]",
    system_level := "Virtualization",
    fault_category := "Misconfiguration",
    deployment := none
 },
  { 
    id := "assign_to_non_existent_node_social_net-analysis-1",
    task := "analysis",
    app := "Social Network",
    «namespace» := "social-network",
    faulty_service := "compose-post-service",
    fault_type := "assign_non_existent_node",
    fault_description := "Pod assigned to non-existent node",
    workload := "socialNetwork/wrk2/scripts/social-network/compose-post.lua",
    expected_solution := "\x7b\"system_level\": \"Virtualization\", \"fault_type\": \"Misconfiguration\"\x7d",
    system_level := "Virtualization",
    fault_category := "Misconfiguration",
    deployment := none
 },
  { 
    id := "assign_to_non_existent_node_social_net-mitigation-1",
    task := "mitigation",
    app := "Social Network",
    «namespace» := "social-network",
    faulty_service := "compose-post-service",
    fault_type := "assign_non_existent_node",
    fault_description := "Pod assigned to non-existent node",
    workload := "socialNetwork/wrk2/scripts/social-network/compose-post.lua",
    expected_solution := "Remove invalid node selector, all pods Running",
    system_level := "Virtualization",
    fault_category := "Misconfiguration",
    deployment := none
 },
  { 
    id := "container_kill-detection",
    task := "detection",
    app := "Hotel Reservation",
    «namespace» := "hotel-reserv",
    faulty_service := "user",
    fault_type := "container_kill",
    fault_description := "Container killed via Chaos Mesh",
    workload := "hotelReservation/wrk2/scripts/hotel-reservation/mixed-workload_type_1.lua",
    expected_solution := "Yes",
    system_level := "Virtualization",
    fault_category := "Operation Error",
    deployment := none
 },
  { 
    id := "container_kill-localization",
    task := "localization",
    app := "Hotel Reservation",
    «namespace» := "hotel-reserv",
    faulty_service := "user",
    fault_type := "container_kill",
    fault_description := "Container killed via Chaos Mesh",
    workload := "hotelReservation/wrk2/scripts/hotel-reservation/mixed-workload_type_1.lua",
    expected_solution := "[\"user\"]",
    system_level := "Virtualization",
    fault_category := "Operation Error",
    deployment := none
 },
  { 
    id := "pod_failure_hotel_res-detection-1",
    task := "detection",
    app := "Hotel Reservation",
    «namespace» := "hotel-reserv",
    faulty_service := "user",
    fault_type := "pod_failure",
    fault_description := "Pod failure injected via Chaos Mesh",
    workload := "hotelReservation/wrk2/scripts/hotel-reservation/mixed-workload_type_1.lua",
    expected_solution := "Yes",
    system_level := "Virtualization",
    fault_category := "Operation Error",
    deployment := none
 },
  { 
    id := "pod_failure_hotel_res-localization-1",
    task := "localization",
    app := "Hotel Reservation",
    «namespace» := "hotel-reserv",
    faulty_service := "user",
    fault_type := "pod_failure",
    fault_description := "Pod failure injected via Chaos Mesh",
    workload := "hotelReservation/wrk2/scripts/hotel-reservation/mixed-workload_type_1.lua",
    expected_solution := "[\"user\"]",
    system_level := "Virtualization",
    fault_category := "Operation Error",
    deployment := none
 },
  { 
    id := "pod_kill_hotel_res-detection-1",
    task := "detection",
    app := "Hotel Reservation",
    «namespace» := "hotel-reserv",
    faulty_service := "user",
    fault_type := "pod_kill",
    fault_description := "Pod killed via Chaos Mesh",
    workload := "hotelReservation/wrk2/scripts/hotel-reservation/mixed-workload_type_1.lua",
    expected_solution := "Yes",
    system_level := "Virtualization",
    fault_category := "Operation Error",
    deployment := none
 },
  { 
    id := "pod_kill_hotel_res-localization-1",
    task := "localization",
    app := "Hotel Reservation",
    «namespace» := "hotel-reserv",
    faulty_service := "user",
    fault_type := "pod_kill",
    fault_description := "Pod killed via Chaos Mesh",
    workload := "hotelReservation/wrk2/scripts/hotel-reservation/mixed-workload_type_1.lua",
    expected_solution := "[\"user\"]",
    system_level := "Virtualization",
    fault_category := "Operation Error",
    deployment := none
 },
  { 
    id := "network_loss_hotel_res-detection-1",
    task := "detection",
    app := "Hotel Reservation",
    «namespace» := "hotel-reserv",
    faulty_service := "user",
    fault_type := "network_loss",
    fault_description := "Network packet loss injected",
    workload := "hotelReservation/wrk2/scripts/hotel-reservation/mixed-workload_type_1.lua",
    expected_solution := "Yes",
    system_level := "Operating System",
    fault_category := "Network/Storage Issue",
    deployment := none
 },
  { 
    id := "network_loss_hotel_res-localization-1",
    task := "localization",
    app := "Hotel Reservation",
    «namespace» := "hotel-reserv",
    faulty_service := "user",
    fault_type := "network_loss",
    fault_description := "Network packet loss injected",
    workload := "hotelReservation/wrk2/scripts/hotel-reservation/mixed-workload_type_1.lua",
    expected_solution := "[\"user\"]",
    system_level := "Operating System",
    fault_category := "Network/Storage Issue",
    deployment := none
 },
  { 
    id := "network_delay_hotel_res-detection-1",
    task := "detection",
    app := "Hotel Reservation",
    «namespace» := "hotel-reserv",
    faulty_service := "user",
    fault_type := "network_delay",
    fault_description := "Network delay/latency injected",
    workload := "hotelReservation/wrk2/scripts/hotel-reservation/mixed-workload_type_1.lua",
    expected_solution := "Yes",
    system_level := "Operating System",
    fault_category := "Network/Storage Issue",
    deployment := none
 },
  { 
    id := "network_delay_hotel_res-localization-1",
    task := "localization",
    app := "Hotel Reservation",
    «namespace» := "hotel-reserv",
    faulty_service := "user",
    fault_type := "network_delay",
    fault_description := "Network delay/latency injected",
    workload := "hotelReservation/wrk2/scripts/hotel-reservation/mixed-workload_type_1.lua",
    expected_solution := "[\"user\"]",
    system_level := "Operating System",
    fault_category := "Network/Storage Issue",
    deployment := none
 },
  { 
    id := "noop_detection_hotel_reservation-1",
    task := "detection",
    app := "Hotel Reservation",
    «namespace» := "hotel-reserv",
    faulty_service := "N/A",
    fault_type := "noop",
    fault_description := "No fault injected (baseline test)",
    workload := "hotelReservation/wrk2/scripts/hotel-reservation/mixed-workload_type_1.lua",
    expected_solution := "No",
    system_level := "N/A",
    fault_category := "N/A",
    deployment := none
 },
  { 
    id := "noop_detection_social_network-1",
    task := "detection",
    app := "Social Network",
    «namespace» := "social-network",
    faulty_service := "N/A",
    fault_type := "noop",
    fault_description := "No fault injected (baseline test)",
    workload := "socialNetwork/wrk2/scripts/social-network/compose-post.lua",
    expected_solution := "No",
    system_level := "N/A",
    fault_category := "N/A",
    deployment := none
 },
  { 
    id := "noop_detection_astronomy_shop-1",
    task := "detection",
    app := "Astronomy Shop",
    «namespace» := "astronomy-shop",
    faulty_service := "N/A",
    fault_type := "noop",
    fault_description := "No fault injected (baseline test)",
    workload := "N/A",
    expected_solution := "No",
    system_level := "N/A",
    fault_category := "N/A",
    deployment := none
 },
  { 
    id := "astronomy_shop_ad_service_failure-detection-1",
    task := "detection",
    app := "Astronomy Shop",
    «namespace» := "astronomy-shop",
    faulty_service := "ad-service",
    fault_type := "feature_flag_failure",
    fault_description := "Ad service failure via feature flag",
    workload := "OpenTelemetry Demo workload",
    expected_solution := "Yes",
    system_level := "Application",
    fault_category := "Code Defect",
    deployment := none
 },
  { 
    id := "astronomy_shop_ad_service_failure-localization-1",
    task := "localization",
    app := "Astronomy Shop",
    «namespace» := "astronomy-shop",
    faulty_service := "ad-service",
    fault_type := "feature_flag_failure",
    fault_description := "Ad service failure via feature flag",
    workload := "OpenTelemetry Demo workload",
    expected_solution := "[\"ad-service\"]",
    system_level := "Application",
    fault_category := "Code Defect",
    deployment := none
 },
  { 
    id := "astronomy_shop_ad_service_high_cpu-detection-1",
    task := "detection",
    app := "Astronomy Shop",
    «namespace» := "astronomy-shop",
    faulty_service := "ad-service",
    fault_type := "high_cpu",
    fault_description := "Ad service high CPU usage via feature flag",
    workload := "OpenTelemetry Demo workload",
    expected_solution := "Yes",
    system_level := "Application",
    fault_category := "Code Defect",
    deployment := none
 },
  { 
    id := "astronomy_shop_ad_service_high_cpu-localization-1",
    task := "localization",
    app := "Astronomy Shop",
    «namespace» := "astronomy-shop",
    faulty_service := "ad-service",
    fault_type := "high_cpu",
    fault_description := "Ad service high CPU usage via feature flag",
    workload := "OpenTelemetry Demo workload",
    expected_solution := "[\"ad-service\"]",
    system_level := "Application",
    fault_category := "Code Defect",
    deployment := none
 },
  { 
    id := "astronomy_shop_ad_service_manual_gc-detection-1",
    task := "detection",
    app := "Astronomy Shop",
    «namespace» := "astronomy-shop",
    faulty_service := "ad-service",
    fault_type := "manual_gc",
    fault_description := "Ad service manual garbage collection issue",
    workload := "OpenTelemetry Demo workload",
    expected_solution := "Yes",
    system_level := "Application",
    fault_category := "Code Defect",
    deployment := none
 },
  { 
    id := "astronomy_shop_ad_service_manual_gc-localization-1",
    task := "localization",
    app := "Astronomy Shop",
    «namespace» := "astronomy-shop",
    faulty_service := "ad-service",
    fault_type := "manual_gc",
    fault_description := "Ad service manual garbage collection issue",
    workload := "OpenTelemetry Demo workload",
    expected_solution := "[\"ad-service\"]",
    system_level := "Application",
    fault_category := "Code Defect",
    deployment := none
 },
  { 
    id := "astronomy_shop_cart_service_failure-detection-1",
    task := "detection",
    app := "Astronomy Shop",
    «namespace» := "astronomy-shop",
    faulty_service := "cart-service",
    fault_type := "service_failure",
    fault_description := "Cart service failure via feature flag",
    workload := "OpenTelemetry Demo workload",
    expected_solution := "Yes",
    system_level := "Application",
    fault_category := "Code Defect",
    deployment := none
 },
  { 
    id := "astronomy_shop_cart_service_failure-localization-1",
    task := "localization",
    app := "Astronomy Shop",
    «namespace» := "astronomy-shop",
    faulty_service := "cart-service",
    fault_type := "service_failure",
    fault_description := "Cart service failure via feature flag",
    workload := "OpenTelemetry Demo workload",
    expected_solution := "[\"cart-service\"]",
    system_level := "Application",
    fault_category := "Code Defect",
    deployment := none
 },
  { 
    id := "astronomy_shop_image_slow_load-detection-1",
    task := "detection",
    app := "Astronomy Shop",
    «namespace» := "astronomy-shop",
    faulty_service := "image-provider",
    fault_type := "slow_load",
    fault_description := "Image provider slow loading",
    workload := "OpenTelemetry Demo workload",
    expected_solution := "Yes",
    system_level := "Application",
    fault_category := "Code Defect",
    deployment := none
 },
  { 
    id := "astronomy_shop_image_slow_load-localization-1",
    task := "localization",
    app := "Astronomy Shop",
    «namespace» := "astronomy-shop",
    faulty_service := "image-provider",
    fault_type := "slow_load",
    fault_description := "Image provider slow loading",
    workload := "OpenTelemetry Demo workload",
    expected_solution := "[\"image-provider\"]",
    system_level := "Application",
    fault_category := "Code Defect",
    deployment := none
 },
  { 
    id := "astronomy_shop_kafka_queue_problems-detection-1",
    task := "detection",
    app := "Astronomy Shop",
    «namespace» := "astronomy-shop",
    faulty_service := "kafka",
    fault_type := "queue_problems",
    fault_description := "Kafka queue processing issues",
    workload := "OpenTelemetry Demo workload",
    expected_solution := "Yes",
    system_level := "Application",
    fault_category := "Dependency Problem",
    deployment := none
 },
  { 
    id := "astronomy_shop_kafka_queue_problems-localization-1",
    task := "localization",
    app := "Astronomy Shop",
    «namespace» := "astronomy-shop",
    faulty_service := "kafka",
    fault_type := "queue_problems",
    fault_description := "Kafka queue processing issues",
    workload := "OpenTelemetry Demo workload",
    expected_solution := "[\"kafka\"]",
    system_level := "Application",
    fault_category := "Dependency Problem",
    deployment := none
 },
  { 
    id := "astronomy_shop_kafka_queue_problems-mitigation-1",
    task := "mitigation",
    app := "Astronomy Shop",
    «namespace» := "astronomy-shop",
    faulty_service := "kafka",
    fault_type := "queue_problems",
    fault_description := "Kafka queue processing issues",
    workload := "OpenTelemetry Demo workload",
    expected_solution := "Fix Kafka queue, all pods Running",
    system_level := "Application",
    fault_category := "Dependency Problem",
    deployment := none
 },
  { 
    id := "astronomy_shop_loadgenerator_flood_homepage-detection-1",
    task := "detection",
    app := "Astronomy Shop",
    «namespace» := "astronomy-shop",
    faulty_service := "loadgenerator",
    fault_type := "flood_homepage",
    fault_description := "Load generator flooding homepage",
    workload := "OpenTelemetry Demo workload",
    expected_solution := "Yes",
    system_level := "Application",
    fault_category := "Operation Error",
    deployment := none
 },
  { 
    id := "astronomy_shop_loadgenerator_flood_homepage-localization-1",
    task := "localization",
    app := "Astronomy Shop",
    «namespace» := "astronomy-shop",
    faulty_service := "loadgenerator",
    fault_type := "flood_homepage",
    fault_description := "Load generator flooding homepage",
    workload := "OpenTelemetry Demo workload",
    expected_solution := "[\"loadgenerator\"]",
    system_level := "Application",
    fault_category := "Operation Error",
    deployment := none
 },
  { 
    id := "astronomy_shop_payment_service_failure-detection-1",
    task := "detection",
    app := "Astronomy Shop",
    «namespace» := "astronomy-shop",
    faulty_service := "payment-service",
    fault_type := "service_failure",
    fault_description := "Payment service failure via feature flag",
    workload := "OpenTelemetry Demo workload",
    expected_solution := "Yes",
    system_level := "Application",
    fault_category := "Code Defect",
    deployment := none
 },
  { 
    id := "astronomy_shop_payment_service_failure-localization-1",
    task := "localization",
    app := "Astronomy Shop",
    «namespace» := "astronomy-shop",
    faulty_service := "payment-service",
    fault_type := "service_failure",
    fault_description := "Payment service failure via feature flag",
    workload := "OpenTelemetry Demo workload",
    expected_solution := "[\"payment-service\"]",
    system_level := "Application",
    fault_category := "Code Defect",
    deployment := none
 },
  { 
    id := "astronomy_shop_payment_service_unreachable-detection-1",
    task := "detection",
    app := "Astronomy Shop",
    «namespace» := "astronomy-shop",
    faulty_service := "payment-service",
    fault_type := "unreachable",
    fault_description := "Payment service unreachable",
    workload := "OpenTelemetry Demo workload",
    expected_solution := "Yes",
    system_level := "Application",
    fault_category := "Network/Storage Issue",
    deployment := none
 },
  { 
    id := "astronomy_shop_payment_service_unreachable-localization-1",
    task := "localization",
    app := "Astronomy Shop",
    «namespace» := "astronomy-shop",
    faulty_service := "payment-service",
    fault_type := "unreachable",
    fault_description := "Payment service unreachable",
    workload := "OpenTelemetry Demo workload",
    expected_solution := "[\"payment-service\"]",
    system_level := "Application",
    fault_category := "Network/Storage Issue",
    deployment := none
 },
  { 
    id := "astronomy_shop_product_catalog_service_failure-detection-1",
    task := "detection",
    app := "Astronomy Shop",
    «namespace» := "astronomy-shop",
    faulty_service := "product-catalog-service",
    fault_type := "service_failure",
    fault_description := "Product catalog service failure",
    workload := "OpenTelemetry Demo workload",
    expected_solution := "Yes",
    system_level := "Application",
    fault_category := "Code Defect",
    deployment := none
 },
  { 
    id := "astronomy_shop_product_catalog_service_failure-localization-1",
    task := "localization",
    app := "Astronomy Shop",
    «namespace» := "astronomy-shop",
    faulty_service := "product-catalog-service",
    fault_type := "service_failure",
    fault_description := "Product catalog service failure",
    workload := "OpenTelemetry Demo workload",
    expected_solution := "[\"product-catalog-service\"]",
    system_level := "Application",
    fault_category := "Code Defect",
    deployment := none
 },
  { 
    id := "astronomy_shop_recommendation_service_cache_failure-detection-1",
    task := "detection",
    app := "Astronomy Shop",
    «namespace» := "astronomy-shop",
    faulty_service := "recommendation-service",
    fault_type := "cache_failure",
    fault_description := "Recommendation service cache failure",
    workload := "OpenTelemetry Demo workload",
    expected_solution := "Yes",
    system_level := "Application",
    fault_category := "Code Defect",
    deployment := none
 },
  { 
    id := "astronomy_shop_recommendation_service_cache_failure-localization-1",
    task := "localization",
    app := "Astronomy Shop",
    «namespace» := "astronomy-shop",
    faulty_service := "recommendation-service",
    fault_type := "cache_failure",
    fault_description := "Recommendation service cache failure",
    workload := "OpenTelemetry Demo workload",
    expected_solution := "[\"recommendation-service\"]",
    system_level := "Application",
    fault_category := "Code Defect",
    deployment := none
 },
  { 
    id := "redeploy_without_PV-detection-1",
    task := "detection",
    app := "Hotel Reservation",
    «namespace» := "hotel-reserv",
    faulty_service := "mongodb",
    fault_type := "redeploy_without_pv",
    fault_description := "Namespace redeployed without deleting PersistentVolume",
    workload := "hotelReservation/wrk2/scripts/hotel-reservation/mixed-workload_type_1.lua",
    expected_solution := "Yes",
    system_level := "Virtualization",
    fault_category := "Operation Error",
    deployment := none
 },
  { 
    id := "redeploy_without_PV-analysis-1",
    task := "analysis",
    app := "Hotel Reservation",
    «namespace» := "hotel-reserv",
    faulty_service := "mongodb",
    fault_type := "redeploy_without_pv",
    fault_description := "Namespace redeployed without deleting PersistentVolume",
    workload := "hotelReservation/wrk2/scripts/hotel-reservation/mixed-workload_type_1.lua",
    expected_solution := "\x7b\"system_level\": \"Virtualization\", \"fault_type\": \"Operation Error\"\x7d",
    system_level := "Virtualization",
    fault_category := "Operation Error",
    deployment := none
 },
  { 
    id := "redeploy_without_PV-mitigation-1",
    task := "mitigation",
    app := "Hotel Reservation",
    «namespace» := "hotel-reserv",
    faulty_service := "mongodb",
    fault_type := "redeploy_without_pv",
    fault_description := "Namespace redeployed without deleting PersistentVolume",
    workload := "hotelReservation/wrk2/scripts/hotel-reservation/mixed-workload_type_1.lua",
    expected_solution := "Delete old PV and recreate, all pods Running",
    system_level := "Virtualization",
    fault_category := "Operation Error",
    deployment := none
 },
  { 
    id := "wrong_bin_usage-detection-1",
    task := "detection",
    app := "General",
    «namespace» := "default",
    faulty_service := "app",
    fault_type := "wrong_bin_usage",
    fault_description := "Wrong binary being used in container",
    workload := "N/A",
    expected_solution := "Yes",
    system_level := "Application",
    fault_category := "Misconfiguration",
    deployment := none
 },
  { 
    id := "wrong_bin_usage-localization-1",
    task := "localization",
    app := "General",
    «namespace» := "default",
    faulty_service := "app",
    fault_type := "wrong_bin_usage",
    fault_description := "Wrong binary being used in container",
    workload := "N/A",
    expected_solution := "[\"app\"]",
    system_level := "Application",
    fault_category := "Misconfiguration",
    deployment := none
 },
  { 
    id := "wrong_bin_usage-analysis-1",
    task := "analysis",
    app := "General",
    «namespace» := "default",
    faulty_service := "app",
    fault_type := "wrong_bin_usage",
    fault_description := "Wrong binary being used in container",
    workload := "N/A",
    expected_solution := "\x7b\"system_level\": \"Application\", \"fault_type\": \"Misconfiguration\"\x7d",
    system_level := "Application",
    fault_category := "Misconfiguration",
    deployment := none
 },
  { 
    id := "wrong_bin_usage-mitigation-1",
    task := "mitigation",
    app := "General",
    «namespace» := "default",
    faulty_service := "app",
    fault_type := "wrong_bin_usage",
    fault_description := "Wrong binary being used in container",
    workload := "N/A",
    expected_solution := "Fix binary path, all pods Running",
    system_level := "Application",
    fault_category := "Misconfiguration",
    deployment := none
 },
  { 
    id := "flower_node_stop-detection",
    task := "detection",
    app := "Flower (FL)",
    «namespace» := "docker",
    faulty_service := "node",
    fault_type := "node_stop",
    fault_description := "Federated learning node stopped",
    workload := "Flower FL workload",
    expected_solution := "Yes",
    system_level := "Application",
    fault_category := "Operation Error",
    deployment := some "docker"
 },
  { 
    id := "flower_model_misconfig-detection",
    task := "detection",
    app := "Flower (FL)",
    «namespace» := "docker",
    faulty_service := "model",
    fault_type := "model_misconfig",
    fault_description := "Federated learning model misconfiguration",
    workload := "Flower FL workload",
    expected_solution := "Yes",
    system_level := "Application",
    fault_category := "Misconfiguration",
    deployment := some "docker"
 }]

/-- The problem registry after the default-deployment pass: the value the
exporters read. -/
def PROBLEMS : List ProblemRecord := PROBLEMS_raw.map addDefaultDeployment

/-- Lexicographic comparison of char sequences by code point (the order
Python applies when sorting strings). -/
def chLe : List Char → List Char → Bool
  | [], _ => true
  | _ :: _, [] => false
  | a :: as, b :: bs =>
    if a.toNat < b.toNat then true
    else if b.toNat < a.toNat then false
    else chLe as bs

/-- Code-point lexicographic order on strings. -/
def strLe (a b : String) : Bool := chLe a.data b.data

/-- Model of Python `sorted(set(l))` for strings: distinct values in
lexicographic order. -/
def sortedUnique (l : List String) : List String :=
  List.insertionSort (fun a b => strLe a b = true) l.dedup

/-- The fixed task-kind iteration order used by every exporter. -/
def taskOrder : List String := ["detection", "localization", "analysis", "mitigation"]

/-- The `summary` object computed by `save_to_json`. -/
structure JsonSummary where
  total : Nat
  by_task : List (String × Nat)
  by_app : List (String × Nat)
deriving Repr, DecidableEq

/-- The whole JSON document written by `save_to_json`. -/
structure JsonOutput where
  task_types : List (String × TaskTypeInfo)
  problems : List ProblemRecord
  summary : JsonSummary
deriving Repr, DecidableEq

/-- `save_to_json`: builds the output dict (task types, the record list,
and the computed summary). -/
def save_to_json (problems : List ProblemRecord) : JsonOutput :=
  { task_types := TASK_TYPES
    problems := problems
    summary :=
      { total := problems.length
        by_task := taskOrder.map
          (fun task => (task, (problems.filter (fun p => p.task == task)).length))
        by_app := (sortedUnique (problems.map (fun p => p.app))).map
          (fun app => (app, (problems.filter (fun p => p.app == app)).length)) } }

/-- The fixed CSV column order passed to `csv.DictWriter`. -/
def fieldnames : List String :=
  ["id", "task", "app", "namespace", "faulty_service",
   "fault_type", "fault_description", "workload",
   "expected_solution", "system_level", "fault_category", "deployment"]

/-- The `rowdict[key]` lookup `csv.DictWriter` performs for each column. -/
def getField (p : ProblemRecord) : String → String
  | "id" => p.id
  | "task" => p.task
  | "app" => p.app
  | "namespace" => p.«namespace»
  | "faulty_service" => p.faulty_service
  | "fault_type" => p.fault_type
  | "fault_description" => p.fault_description
  | "workload" => p.workload
  | "expected_solution" => p.expected_solution
  | "system_level" => p.system_level
  | "fault_category" => p.fault_category
  | "deployment" => p.deployment
  | _ => ""

/-- QUOTE_MINIMAL rule of the Python `csv` writer: a field is quoted iff
it contains the delimiter, the quote character, or a line-terminator
character. -/
def needsQuote (f : List Char) : Bool :=
  f.any (fun c => c == ',' || c == '"' || c == '\r' || c == '\n')

/-- CSV escaping inside a quoted field: double every quote character. -/
def dupQuotes : List Char → List Char
  | [] => []
  | c :: rest => if c = '"' then '"' :: '"' :: dupQuotes rest else c :: dupQuotes rest

/-- Render one field per the writer's QUOTE_MINIMAL policy. -/
def escapeField (f : List Char) : List Char :=
  if needsQuote f then '"' :: (dupQuotes f ++ ['"']) else f

/-- Escaped fields joined by the `,` delimiter (the writer's
`delimiter.join` step). -/
def rowBody : List String → List Char
  | [] => []
  | [f] => escapeField f.data
  | f :: fs => escapeField f.data ++ ',' :: rowBody fs

/-- One CSV line: escaped fields joined by commas, terminated by CRLF
(the `csv` module's default line terminator). -/
def serializeRow (fields : List String) : List Char :=
  rowBody fields ++ ['\r', '\n']

/-- The row of cell values `csv.DictWriter` writes for one record, in
`fieldnames` order. -/
def recordRow (p : ProblemRecord) : List String := fieldnames.map (getField p)

/-- `save_to_csv`: the text of the file, a header row then one row per
record in registry order. -/
def save_to_csv (problems : List ProblemRecord) : String :=
  String.mk (((fieldnames :: problems.map recordRow).map serializeRow).flatten)

/-- What follows a CSV field: a comma, a CRLF line end, or end of input. -/
inductive CsvSep where
  | comma
  | newline
  | endOfInput
deriving Repr, DecidableEq

/-- Scan the rest of a quoted field (opening quote already consumed):
the field's chars and the input left after the closing quote. -/
def scanQuoted : List Char → Option (List Char × List Char)
  | [] => none
  | c :: rest =>
    if c = '"' then
      match rest with
      | [] => some ([], [])
      | c2 :: rest2 =>
        if c2 = '"' then (scanQuoted rest2).map (fun p => ('"' :: p.1, p.2))
        else some ([], rest)
    else (scanQuoted rest).map (fun p => (c :: p.1, p.2))

/-- Scan the separator expected right after a closing quote. -/
def scanSep : List Char → Option (CsvSep × List Char)
  | [] => some (.endOfInput, [])
  | c :: rest =>
    if c = ',' then some (.comma, rest)
    else if c = '\r' ∧ rest.head? = some '\n' then some (.newline, rest.tail)
    else none

/-- Scan an unquoted field up to the next separator. -/
def scanUnquoted : List Char → List Char × CsvSep × List Char
  | [] => ([], .endOfInput, [])
  | c :: rest =>
    if c = ',' then ([], .comma, rest)
    else if c = '\r' ∧ rest.head? = some '\n' then ([], .newline, rest.tail)
    else
      let t := scanUnquoted rest
      (c :: t.1, t.2.1, t.2.2)

/-- Scan one CSV field together with the separator that follows it. -/
def scanField (cs : List Char) : Option (List Char × CsvSep × List Char) :=
  if cs.head? = some '"' then
    (scanQuoted cs.tail).bind (fun p => (scanSep p.2).map (fun q => (p.1, q.1, q.2)))
  else some (scanUnquoted cs)

/-- Parse one CSV record; returns its fields and `some rest` when the
record ended with a line break, `none` when it ended at end of input. -/
def parseRecFuel : Nat → List Char → Option (List (List Char) × Option (List Char))
  | 0, _ => none
  | fuel + 1, cs =>
    match scanField cs with
    | none => none
    | some (f, CsvSep.comma, rest) =>
      (parseRecFuel fuel rest).map (fun p => (f :: p.1, p.2))
    | some (f, CsvSep.newline, rest) => some ([f], some rest)
    | some (f, CsvSep.endOfInput, _) => some ([f], none)

/-- Parse a whole CSV document into its records. -/
def parseRowsFuel : Nat → List Char → Option (List (List (List Char)))
  | 0, _ => none
  | fuel + 1, cs =>
    if cs.isEmpty then some []
    else
      (parseRecFuel (cs.length + 1) cs).bind (fun p =>
        match p.2 with
        | none => some [p.1]
        | some rest => (parseRowsFuel fuel rest).map (fun rs => p.1 :: rs))

/-- Standard CSV parser entry point. -/
def parseCSV (s : String) : Option (List (List String)) :=
  (parseRowsFuel (s.length + 1) s.data).map (fun rows => rows.map (fun r => r.map String.mk))

/-- The characters a `CsvSep` stands for in the serialized file. -/
def sepRender : CsvSep → List Char
  | .comma => [',']
  | .newline => ['\r', '\n']
  | .endOfInput => []

/-- The `task_problems` filter of `save_to_txt` (and of `print_summary`):
records of one task kind, in registry order. -/
def taskProblems (problems : List ProblemRecord) (task_type : String) : List ProblemRecord :=
  problems.filter (fun p => p.task == task_type)

/-- The deployment marker shown before each record id in the text report. -/
def deployIcon (p : ProblemRecord) : String :=
  if p.deployment == "docker" then "[Docker]" else "[K8s]"

/-- Right-align a string in a field of width `w` (Python `f"..."` with a
width-3 format spec). -/
def padLeft (s : String) (w : Nat) : String :=
  String.mk (List.replicate (w - s.length) ' ') ++ s

/-- A line of `=` characters of length 100. -/
def eq100 : String := String.mk (List.replicate 100 '=')

/-- A line of `-` characters of length 100. -/
def dash100 : String := String.mk (List.replicate 100 '-')

/-- One labeled multi-line record block of the text report; `i` is the
1-based position inside the task section. -/
def renderBlock (i : Nat) (p : ProblemRecord) : String :=
  padLeft (toString i) 3 ++ ". " ++ deployIcon p ++ " " ++ p.id ++ "\n" ++
  "     ├─ Application:       " ++ p.app ++ "\n" ++
  "     ├─ Namespace:         " ++ p.«namespace» ++ "\n" ++
  "     ├─ Faulty Service:    " ++ p.faulty_service ++ "\n" ++
  "     ├─ Fault Type:        " ++ p.fault_type ++ "\n" ++
  "     ├─ Fault Description: " ++ p.fault_description ++ "\n" ++
  "     ├─ Workload:          " ++ p.workload ++ "\n" ++
  "     ├─ Expected Solution: " ++ p.expected_solution ++ "\n" ++
  "     ├─ System Level:      " ++ p.system_level ++ "\n" ++
  "     └─ Fault Category:    " ++ p.fault_category ++ "\n" ++
  "\n"

/-- The record blocks rendered under one task kind's section of the text
report, in registry order, numbered from 1. -/
def txtBlocks (problems : List ProblemRecord) (task_type : String) : List String :=
  (taskProblems problems task_type).enum.map (fun ip => renderBlock (ip.1 + 1) ip.2)

/-- One task kind's section of the text report; empty sections are
skipped entirely (`if not task_problems: continue`). -/
def renderTaskSection (problems : List ProblemRecord) (task_type : String) : String :=
  if (taskProblems problems task_type).isEmpty then ""
  else
    "\n" ++ eq100 ++ "\n" ++
    task_type.toUpper ++ " PROBLEMS (" ++
      toString (taskProblems problems task_type).length ++ ")\n" ++
    eq100 ++ "\n\n" ++
    String.join (txtBlocks problems task_type)

/-- One entry of the TASK TYPES part of the text report. -/
def renderTaskType (t : String × TaskTypeInfo) : String :=
  t.1.toUpper ++ ":\n" ++
  "  Description: " ++ t.2.description ++ "\n" ++
  "  Expected Solution Format: " ++ t.2.expected_solution_format ++ "\n" ++
  "  Metric: " ++ t.2.metric ++ "\n" ++
  (match t.2.system_levels with
   | some ls => "  System Levels: " ++ String.intercalate ", " ls ++ "\n"
   | none => "") ++
  (match t.2.fault_types with
   | some ls => "  Fault Types: " ++ String.intercalate ", " ls ++ "\n"
   | none => "") ++
  "\n"

/-- The total the SUMMARY section of the text report states on its
`Total Problems:` line. -/
def txtReportedTotal (problems : List ProblemRecord) : Nat := problems.length

/-- One `  - key: count` line of a grouped tally in the SUMMARY section. -/
def summaryLine (key : String) (count : Nat) : String :=
  "  - " ++ key ++ ": " ++ toString count ++ "\n"

/-- The SUMMARY section of the text report. -/
def renderSummary (problems : List ProblemRecord) : String :=
  "\n" ++ eq100 ++ "\n" ++ "SUMMARY\n" ++ eq100 ++ "\n\n" ++
  "Total Problems: " ++ toString (txtReportedTotal problems) ++ "\n\n" ++
  "By Task Type:\n" ++
  String.join (taskOrder.map (fun t =>
    summaryLine t.capitalize (taskProblems problems t).length)) ++
  "\nBy Application:\n" ++
  String.join ((sortedUnique (problems.map (fun p => p.app))).map (fun app =>
    summaryLine app (problems.filter (fun p => p.app == app)).length)) ++
  "\nBy System Level:\n" ++
  String.join ((sortedUnique (problems.map (fun p => p.system_level))).map (fun level =>
    summaryLine level (problems.filter (fun p => p.system_level == level)).length)) ++
  "\nBy Fault Category:\n" ++
  String.join ((sortedUnique (problems.map (fun p => p.fault_category))).map (fun cat =>
    summaryLine cat (problems.filter (fun p => p.fault_category == cat)).length)) ++
  "\nBy Deployment:\n" ++
  "  - Kubernetes: " ++ toString (problems.filter (fun p => p.deployment == "k8s")).length ++ "\n" ++
  "  - Docker: " ++ toString (problems.filter (fun p => p.deployment == "docker")).length ++ "\n"

/-- A record whose `task` is outside the four recognized kinds, used to
exercise the grouped-listing filter on hypothetical inputs. -/
def oddTaskRecord : ProblemRecord :=
  { id := "odd-task-sample"
    task := "calibration"
    app := "Sample App"
    «namespace» := "sample"
    faulty_service := "svc"
    fault_type := "none"
    fault_description := "sample record with unrecognized task kind"
    workload := "none"
    expected_solution := "N/A"
    system_level := "Application"
    fault_category := "Operation Error"
    deployment := "k8s" }

/-- `save_to_txt`: the full text of the formatted report. -/
def save_to_txt (problems : List ProblemRecord) : String :=
  eq100 ++ "\n" ++
  "AIOpsLab Problem Registry - Complete Details\n" ++
  eq100 ++ "\n\n" ++
  "TASK TYPES\n" ++ dash100 ++ "\n\n" ++
  String.join (TASK_TYPES.map renderTaskType) ++
  String.join (taskOrder.map (renderTaskSection problems)) ++
  renderSummary problems

/-- Size of the embedded registry, fixed by evaluation. -/
theorem registry_size : (save_to_json PROBLEMS).summary.total = 89 := by decide

/-! ### Round-trip correctness of the CSV writer against a standard CSV parser -/

theorem needsQuote_false_cons {c : Char} {f : List Char} (h : needsQuote (c :: f) = false) :
    ¬c = ',' ∧ ¬c = '"' ∧ ¬c = '\r' ∧ ¬c = '\n' ∧ needsQuote f = false := by
  simp only [needsQuote, List.any_cons, Bool.or_eq_false_iff, beq_eq_false_iff_ne, ne_eq] at h
  exact ⟨h.1.1.1.1, h.1.1.1.2, h.1.1.2, h.1.2, h.2⟩

theorem scanQuoted_round (f rest : List Char) (h : rest.head? ≠ some '"') :
    scanQuoted (dupQuotes f ++ '"' :: rest) = some (f, rest) := by
  induction f with
  | nil =>
    cases rest with
    | nil => simp [dupQuotes, scanQuoted]
    | cons c2 r2 =>
      have hc2 : ¬c2 = '"' := by
        intro e
        exact h (by simp [e])
      simp [dupQuotes, scanQuoted, hc2]
  | cons c f ih =>
    by_cases hc : c = '"'
    · subst hc
      simp [dupQuotes, scanQuoted, ih]
    · simp only [dupQuotes, if_neg hc, List.cons_append]
      rw [scanQuoted.eq_def]
      simp [hc, ih]

theorem scanUnquoted_round (f : List Char) (t : CsvSep) (rest : List Char)
    (hf : needsQuote f = false) (ht : t = CsvSep.endOfInput → rest = []) :
    scanUnquoted (f ++ (sepRender t ++ rest)) = (f, t, rest) := by
  induction f with
  | nil =>
    cases t with
    | comma => simp [sepRender, scanUnquoted]
    | newline => simp [sepRender, scanUnquoted]
    | endOfInput => simp [sepRender, scanUnquoted, ht rfl]
  | cons c f ih =>
    obtain ⟨hc1, hc2, hc3, hc4, hf'⟩ := needsQuote_false_cons hf
    have ih' := ih hf'
    rw [List.cons_append, scanUnquoted.eq_def]
    simp [hc1, hc3, ih']

theorem scanSep_round (t : CsvSep) (rest : List Char)
    (ht : t = CsvSep.endOfInput → rest = []) :
    scanSep (sepRender t ++ rest) = some (t, rest) := by
  cases t with
  | comma => simp [sepRender, scanSep]
  | newline => simp [sepRender, scanSep]
  | endOfInput => simp [sepRender, scanSep, ht rfl]

theorem scanField_round (f : List Char) (t : CsvSep) (rest : List Char)
    (ht : t = CsvSep.endOfInput → rest = []) :
    scanField (escapeField f ++ (sepRender t ++ rest)) = some (f, t, rest) := by
  have hsep : (sepRender t ++ rest).head? ≠ some '"' := by
    cases t with
    | comma => simp [sepRender]
    | newline => simp [sepRender]
    | endOfInput => simp [sepRender, ht rfl]
  cases hq : needsQuote f with
  | false =>
    have hhead : ¬(f ++ (sepRender t ++ rest)).head? = some '"' := by
      cases f with
      | nil => simpa using hsep
      | cons c f' =>
        obtain ⟨_, hcq, _, _, _⟩ := needsQuote_false_cons hq
        simp [hcq]
    have hesc : escapeField f = f := by simp [escapeField, hq]
    have hu := scanUnquoted_round f t rest hq ht
    rw [hesc]
    unfold scanField
    rw [if_neg hhead, hu]
  | true =>
    have hshape : escapeField f ++ (sepRender t ++ rest)
        = '"' :: (dupQuotes f ++ '"' :: (sepRender t ++ rest)) := by
      simp [escapeField, hq]
    rw [hshape]
    unfold scanField
    simp [scanQuoted_round f (sepRender t ++ rest) hsep, scanSep_round t rest ht]

theorem parseRec_round (fs : List String) : ∀ (f : String) (fuel : Nat) (rest : List Char),
    fs.length + 1 ≤ fuel →
    parseRecFuel fuel (rowBody (f :: fs) ++ '\r' :: '\n' :: rest)
      = some ((f :: fs).map String.data, some rest) := by
  induction fs with
  | nil =>
    intro f fuel rest hfuel
    obtain ⟨n, rfl⟩ : ∃ n, fuel = n + 1 := ⟨fuel - 1, by omega⟩
    have h := scanField_round f.data CsvSep.newline rest (by intro hx; cases hx)
    simp only [sepRender, List.cons_append, List.nil_append] at h
    rw [show rowBody [f] = escapeField f.data from rfl]
    rw [parseRecFuel.eq_def]
    simp only [h]
    simp
  | cons g fs ih =>
    intro f fuel rest hfuel
    obtain ⟨n, rfl⟩ : ∃ n, fuel = n + 1 := ⟨fuel - 1, by omega⟩
    have h := scanField_round f.data CsvSep.comma
      (rowBody (g :: fs) ++ '\r' :: '\n' :: rest) (by intro hx; cases hx)
    simp only [sepRender, List.cons_append, List.nil_append] at h
    have hshape : rowBody (f :: g :: fs) ++ '\r' :: '\n' :: rest
        = escapeField f.data ++ ',' :: (rowBody (g :: fs) ++ '\r' :: '\n' :: rest) := by
      simp [rowBody]
    rw [hshape, parseRecFuel.eq_def]
    simp only [h]
    have ih' := ih g n rest (by simp only [List.length_cons] at hfuel; omega)
    simp [ih']

theorem rowBody_length_ge : ∀ fs : List String, fs.length ≤ (rowBody fs).length + 1
  | [] => by simp [rowBody]
  | [_] => by simp [rowBody]
  | f :: g :: fs => by
    have ih := rowBody_length_ge (g :: fs)
    simp only [rowBody, List.length_append, List.length_cons] at *
    omega

theorem parseRows_round : ∀ (rows : List (List String)) (fuel : Nat),
    rows.length + 1 ≤ fuel → (∀ r ∈ rows, r ≠ []) →
    parseRowsFuel fuel ((rows.map serializeRow).flatten)
      = some (rows.map (fun r => r.map String.data)) := by
  intro rows
  induction rows with
  | nil =>
    intro fuel h _
    obtain ⟨n, rfl⟩ : ∃ n, fuel = n + 1 := ⟨fuel - 1, by omega⟩
    simp [parseRowsFuel]
  | cons r rows ih =>
    intro fuel h hne
    obtain ⟨n, rfl⟩ : ∃ n, fuel = n + 1 := ⟨fuel - 1, by omega⟩
    obtain ⟨f, fs, rfl⟩ : ∃ f fs, r = f :: fs := by
      cases r with
      | nil => exact absurd rfl (hne [] (by simp))
      | cons f fs => exact ⟨f, fs, rfl⟩
    have hinput : (((f :: fs) :: rows).map serializeRow).flatten
        = rowBody (f :: fs) ++ '\r' :: '\n' :: (rows.map serializeRow).flatten := by
      simp [serializeRow]
    rw [hinput]
    have hlen : fs.length + 1
        ≤ (rowBody (f :: fs) ++ '\r' :: '\n' :: (rows.map serializeRow).flatten).length + 1 := by
      have := rowBody_length_ge (f :: fs)
      simp only [List.length_append, List.length_cons] at *
      omega
    have hrec := parseRec_round fs f
      ((rowBody (f :: fs) ++ '\r' :: '\n' :: (rows.map serializeRow).flatten).length + 1)
      ((rows.map serializeRow).flatten) hlen
    have hih := ih n (by simp only [List.length_cons] at h; omega)
      (fun r hr => hne r (by simp [hr]))
    have hnonempty : (rowBody (f :: fs) ++ '\r' :: '\n' :: (rows.map serializeRow).flatten).isEmpty = false := by
      simp [List.isEmpty_eq_false]
    rw [parseRowsFuel.eq_def]
    simp only [hnonempty, Bool.false_eq_true, if_false, hrec, hih]
    simp
    exact hih

theorem rows_length_le_flatten : ∀ rows : List (List String),
    rows.length ≤ ((rows.map serializeRow).flatten).length := by
  intro rows
  induction rows with
  | nil => simp
  | cons r rows ih =>
    simp only [List.map_cons, List.flatten_cons, List.length_append, List.length_cons]
    have : 1 ≤ (serializeRow r).length := by
      simp [serializeRow]
    omega

theorem parse_serialize (rows : List (List String)) (hne : ∀ r ∈ rows, r ≠ []) :
    parseCSV (String.mk ((rows.map serializeRow).flatten)) = some rows := by
  unfold parseCSV
  have hlen : rows.length + 1 ≤ (String.mk ((rows.map serializeRow).flatten)).length + 1 := by
    have := rows_length_le_flatten rows
    simp only [String.length]
    omega
  rw [show (String.mk ((rows.map serializeRow).flatten)).data
      = (rows.map serializeRow).flatten from rfl]
  rw [parseRows_round rows _ hlen hne]
  have hcomp : (String.mk ∘ String.data) = id := funext fun _ => rfl
  simp [List.map_map, hcomp]

theorem fieldnames_nonempty : ∀ r ∈ (fieldnames :: List.map recordRow problems), r ≠ [] := by
  intro r hr
  rcases List.mem_cons.mp hr with rfl | hmem
  · simp [fieldnames]
  · obtain ⟨p, _, rfl⟩ := List.mem_map.mp hmem
    simp [recordRow, fieldnames]

theorem parse_save_to_csv (problems : List ProblemRecord) :
    parseCSV (save_to_csv problems) = some (fieldnames :: problems.map recordRow) := by
  unfold save_to_csv
  exact parse_serialize (fieldnames :: problems.map recordRow) fieldnames_nonempty

/-! ### The code-point order used for grouping keys -/

theorem chLe_total : ∀ as bs, chLe as bs = true ∨ chLe bs as = true := by
  intro as
  induction as with
  | nil => intro bs; left; rfl
  | cons a as ih =>
    intro bs
    cases bs with
    | nil => right; rfl
    | cons b bs =>
      rcases Nat.lt_trichotomy a.toNat b.toNat with h | h | h
      · left; simp [chLe, h]
      · rcases ih bs with h' | h'
        · left; simp [chLe, h, Nat.lt_irrefl, h']
        · right; simp [chLe, h, Nat.lt_irrefl, h']
      · right; simp [chLe, h]

theorem chLe_trans : ∀ as bs cs, chLe as bs = true → chLe bs cs = true →
    chLe as cs = true := by
  intro as
  induction as with
  | nil => intro bs cs _ _; rfl
  | cons a as ih =>
    intro bs cs h1 h2
    cases bs with
    | nil => simp [chLe] at h1
    | cons b bs =>
      cases cs with
      | nil => simp [chLe] at h2
      | cons c cs =>
        rcases Nat.lt_trichotomy a.toNat b.toNat with hab | hab | hab
        · rcases Nat.lt_trichotomy b.toNat c.toNat with hbc | hbc | hbc
          · simp [chLe, show a.toNat < c.toNat from by omega]
          · simp [chLe, show a.toNat < c.toNat from by omega]
          · simp [chLe, show ¬b.toNat < c.toNat from by omega, hbc] at h2
        · rcases Nat.lt_trichotomy b.toNat c.toNat with hbc | hbc | hbc
          · simp [chLe, show a.toNat < c.toNat from by omega]
          · simp only [chLe, show ¬a.toNat < b.toNat from by omega,
              show ¬b.toNat < a.toNat from by omega, if_false, ite_self] at h1
            simp only [chLe, show ¬b.toNat < c.toNat from by omega,
              show ¬c.toNat < b.toNat from by omega, if_false, ite_self] at h2
            simp only [chLe, show ¬a.toNat < c.toNat from by omega,
              show ¬c.toNat < a.toNat from by omega, if_false, ite_self]
            exact ih bs cs h1 h2
          · simp [chLe, show ¬b.toNat < c.toNat from by omega, hbc] at h2
        · simp [chLe, show ¬a.toNat < b.toNat from by omega, hab] at h1

theorem chLe_antisymm : ∀ as bs, chLe as bs = true → chLe bs as = true →
    as = bs := by
  intro as
  induction as with
  | nil =>
    intro bs _ h2
    cases bs with
    | nil => rfl
    | cons b bs => simp [chLe] at h2
  | cons a as ih =>
    intro bs h1 h2
    cases bs with
    | nil => simp [chLe] at h1
    | cons b bs =>
      rcases Nat.lt_trichotomy a.toNat b.toNat with hab | hab | hab
      · simp [chLe, show ¬b.toNat < a.toNat from by omega, hab] at h2
      · have hc : a = b := Char.ext (UInt32.toNat.inj hab)
        subst hc
        have hrest : as = bs := by
          apply ih bs
          · simpa [chLe, Nat.lt_irrefl] using h1
          · simpa [chLe, Nat.lt_irrefl] using h2
        rw [hrest]
      · simp [chLe, show ¬a.toNat < b.toNat from by omega, hab] at h1

theorem strLe_total (a b : String) : strLe a b = true ∨ strLe b a = true :=
  chLe_total a.data b.data

theorem strLe_trans {a b c : String} (h1 : strLe a b = true) (h2 : strLe b c = true) :
    strLe a c = true :=
  chLe_trans a.data b.data c.data h1 h2

theorem strLe_antisymm {a b : String} (h1 : strLe a b = true) (h2 : strLe b a = true) :
    a = b := by
  have h := chLe_antisymm a.data b.data h1 h2
  cases a
  cases b
  exact congrArg String.mk h

/-! ### Tally helpers -/

theorem indicator_sum_zero (a : String) : ∀ ts : List String, a ∉ ts →
    (ts.map (fun t => if a = t then (1 : Nat) else 0)).sum = 0 := by
  intro ts
  induction ts with
  | nil => intro _; rfl
  | cons t ts ih =>
    intro h
    have h1 : ¬a = t := fun e => h (by simp [e])
    have h2 : a ∉ ts := fun e => h (by simp [e])
    simp [h1, ih h2]

theorem indicator_sum (a : String) : ∀ ts : List String, ts.Nodup →
    (ts.map (fun t => if a = t then (1 : Nat) else 0)).sum
      = if a ∈ ts then 1 else 0 := by
  intro ts
  induction ts with
  | nil => intro _; rfl
  | cons t ts ih =>
    intro hnd
    by_cases h : a = t
    · subst h
      have hnotin : a ∉ ts := (List.nodup_cons.mp hnd).1
      simp [indicator_sum_zero a ts hnotin]
    · simp only [List.map_cons, List.sum_cons, if_neg h, Nat.zero_add,
        ih (List.nodup_cons.mp hnd).2, List.mem_cons]
      by_cases h' : a ∈ ts <;> simp [h, h']

theorem sum_length_filter_eq {α : Type} (f : α → String) (ts : List String)
    (hnd : ts.Nodup) : ∀ l : List α,
    (ts.map (fun t => (l.filter (fun x => f x == t)).length)).sum
      = (l.filter (fun x => decide (f x ∈ ts))).length := by
  intro l
  induction l with
  | nil => simp
  | cons q qs ih =>
    have hpt : ∀ t ∈ ts, ((q :: qs).filter (fun x => f x == t)).length
        = (if f q = t then 1 else 0) + (qs.filter (fun x => f x == t)).length := by
      intro t _
      by_cases h : f q = t <;> simp [List.filter_cons, h] <;> omega
    rw [List.map_congr_left hpt, List.sum_map_add, indicator_sum (f q) ts hnd, ih]
    by_cases h : f q ∈ ts <;> simp [List.filter_cons, h] <;> omega

theorem length_filter_lt {α : Type} (pred : α → Bool) {l : List α} {x : α}
    (hx : x ∈ l) (hpx : pred x = false) : (l.filter pred).length < l.length := by
  induction l with
  | nil => cases hx
  | cons a l ih =>
    rcases List.mem_cons.mp hx with rfl | hx'
    · simp only [List.filter_cons, hpx, Bool.false_eq_true, if_false, List.length_cons]
      have := List.length_filter_le pred l
      omega
    · cases hp : pred a
      · simp only [List.filter_cons, hp, Bool.false_eq_true, if_false, List.length_cons]
        have := List.length_filter_le pred l
        omega
      · simp only [List.filter_cons, hp, if_true, List.length_cons]
        have := ih hx'
        omega

/-! ### Claims -/

/-- C3: every record's `id` is distinct from every other record's `id`
across the full registry. -/
theorem C3_ids_unique : (PROBLEMS.map (fun p => p.id)).Nodup := by decide

/-- C4: every record's `task` is one of the four keys of the task-type
descriptor table: detection, localization, analysis, mitigation. -/
theorem C4_tasks_closed : ∀ p ∈ PROBLEMS, p.task ∈ taskOrder := by decide

/-- Witness for C4 at the first registry record. -/
theorem C4_tasks_closed_witness : (PROBLEMS.head (by decide)).task ∈ taskOrder :=
  C4_tasks_closed _ (List.head_mem _)

/-- C9: the default-filling pass gives every record a `deployment` field;
records that declared none get `k8s`, records that declared `docker` keep
it, and every registry record ends up with `k8s` or `docker`. -/
theorem C9_deployment_defaults :
    (∀ r : RawProblem, r.deployment = none →
      (addDefaultDeployment r).deployment = "k8s") ∧
    (∀ r : RawProblem, r.deployment = some "docker" →
      (addDefaultDeployment r).deployment = "docker") ∧
    (PROBLEMS = PROBLEMS_raw.map addDefaultDeployment) ∧
    (∀ p ∈ PROBLEMS, p.deployment = "k8s" ∨ p.deployment = "docker") := by
  refine ⟨?_, ?_, rfl, by decide⟩
  · intro r h
    simp [addDefaultDeployment, h]
  · intro r h
    simp [addDefaultDeployment, h]

/-- Witness for C9 at the first raw registry record (which declares no
deployment). -/
theorem C9_deployment_defaults_witness :
    (addDefaultDeployment (PROBLEMS_raw.head (by decide))).deployment = "k8s" :=
  C9_deployment_defaults.1 _ (by decide)

/-- C1: `summary.by_task` has exactly the four task kinds as keys, each
mapped to the number of registry records of that task; the counts sum to
`summary.total`, which is the registry length. -/
theorem C1_by_task_summary :
    ((save_to_json PROBLEMS).summary.by_task.map Prod.fst
      = ["detection", "localization", "analysis", "mitigation"]) ∧
    (∀ x ∈ (save_to_json PROBLEMS).summary.by_task,
      x.2 = (PROBLEMS.filter (fun p => p.task == x.1)).length) ∧
    (((save_to_json PROBLEMS).summary.by_task.map Prod.snd).sum
      = (save_to_json PROBLEMS).summary.total) ∧
    ((save_to_json PROBLEMS).summary.total = PROBLEMS.length) := by
  refine ⟨by decide, by decide, by decide, by decide⟩

/-- Witness for C1: the detection entry of `by_task` carries the count of
detection records. -/
theorem C1_by_task_summary_witness :
    (("detection", 34) : String × Nat).2
      = (PROBLEMS.filter (fun p => p.task == "detection")).length :=
  C1_by_task_summary.2.1 ("detection", 34) (by decide)

set_option maxRecDepth 100000 in
/-- C2: `summary.by_app` has one key per distinct `app` value occurring in
the registry, in lexicographically sorted order, each mapped to the number
of records with that app; the counts sum to `summary.total`. -/
theorem C2_by_app_summary :
    (((save_to_json PROBLEMS).summary.by_app.map Prod.fst).Sorted
      (fun a b => strLe a b = true)) ∧
    (((save_to_json PROBLEMS).summary.by_app.map Prod.fst).Nodup) ∧
    (∀ a ∈ (save_to_json PROBLEMS).summary.by_app.map Prod.fst,
      a ∈ PROBLEMS.map (fun p => p.app)) ∧
    (∀ a ∈ PROBLEMS.map (fun p => p.app),
      a ∈ (save_to_json PROBLEMS).summary.by_app.map Prod.fst) ∧
    (∀ x ∈ (save_to_json PROBLEMS).summary.by_app,
      x.2 = (PROBLEMS.filter (fun p => p.app == x.1)).length) ∧
    (((save_to_json PROBLEMS).summary.by_app.map Prod.snd).sum
      = (save_to_json PROBLEMS).summary.total) := by
  refine ⟨by decide, by decide, by decide, by decide, by decide, by decide⟩

set_option maxRecDepth 100000 in
/-- Witness for C2: the Astronomy Shop entry of `by_app` carries the count
of Astronomy Shop records. -/
theorem C2_by_app_summary_witness :
    (("Astronomy Shop", 24) : String × Nat).2
      = (PROBLEMS.filter (fun p => p.app == "Astronomy Shop")).length :=
  C2_by_app_summary.2.2.2.2.1 ("Astronomy Shop", 24) (by decide)

/-- C5: the CSV file parses into exactly one header row naming the twelve
columns in their fixed order, followed by one row per record in registry
order whose cell in each column is that record's value for that field. -/
theorem C5_csv_file_shape (problems : List ProblemRecord) :
    parseCSV (save_to_csv problems)
      = some (["id", "task", "app", "namespace", "faulty_service",
          "fault_type", "fault_description", "workload",
          "expected_solution", "system_level", "fault_category", "deployment"]
        :: problems.map (fun p => fieldnames.map (getField p))) := by
  rw [parse_save_to_csv problems]
  rfl

/-- C6: parsing the CSV file back and dropping the header yields, record by
record and column by column, exactly the field values of the `problems`
array of the JSON document. -/
theorem C6_csv_json_roundtrip (problems : List ProblemRecord) :
    (parseCSV (save_to_csv problems)).map List.tail
      = some ((save_to_json problems).problems.map
          (fun p => fieldnames.map (getField p))) := by
  rw [parse_save_to_csv problems]
  rfl

/-- C7: for each of the four task kinds, the number of record blocks in
that kind's section of the text report equals that kind's count in
`summary.by_task` of the JSON document. -/
theorem C7_txt_sections_match_json (problems : List ProblemRecord) :
    (save_to_json problems).summary.by_task
      = taskOrder.map (fun t => (t, (txtBlocks problems t).length)) := by
  unfold save_to_json txtBlocks taskProblems
  simp

/-- C8: the grouped-section key order is a function of the registry value
alone (any enumeration order of the distinct keys sorts to the same list),
so re-running the three exporters over the unchanged registry produces
identical output. -/
theorem C8_deterministic_exports :
    (∀ (l ys : List String), ys.Perm l.dedup →
      List.insertionSort (fun a b => strLe a b = true) ys = sortedUnique l) ∧
    (∀ r₁ r₂ : List ProblemRecord, r₁ = r₂ →
      save_to_json r₁ = save_to_json r₂ ∧
      save_to_csv r₁ = save_to_csv r₂ ∧
      save_to_txt r₁ = save_to_txt r₂) := by
  constructor
  · intro l ys hperm
    haveI : IsTotal String (fun a b => strLe a b = true) := ⟨strLe_total⟩
    haveI : IsTrans String (fun a b => strLe a b = true) :=
      ⟨fun _ _ _ h1 h2 => strLe_trans h1 h2⟩
    haveI : IsAntisymm String (fun a b => strLe a b = true) :=
      ⟨fun _ _ h1 h2 => strLe_antisymm h1 h2⟩
    exact List.eq_of_perm_of_sorted
      (((List.perm_insertionSort _ ys).trans hperm).trans
        (List.perm_insertionSort _ l.dedup).symm)
      (List.sorted_insertionSort _ ys)
      (List.sorted_insertionSort _ l.dedup)
  · rintro r₁ r₂ rfl
    exact ⟨rfl, rfl, rfl⟩

/-- Witness for C8: sorting either enumeration of the distinct values of
`["b", "a"]` yields the same sorted key list. -/
theorem C8_deterministic_exports_witness :
    List.insertionSort (fun a b => strLe a b = true) ["a", "b"]
      = sortedUnique ["b", "a"] :=
  C8_deterministic_exports.1 ["b", "a"] ["a", "b"] (by decide)

/-- C10: a record whose task is outside the four recognized kinds appears
under no task section of the text report, while the report's
`Total Problems` line still counts it, so fewer blocks are listed than the
reported total. -/
theorem C10_unrecognized_task_omitted (problems : List ProblemRecord)
    (p : ProblemRecord) (hmem : p ∈ problems) (htask : p.task ∉ taskOrder) :
    (∀ t ∈ taskOrder, p ∉ taskProblems problems t) ∧
    txtReportedTotal problems = problems.length ∧
    (taskOrder.map (fun t => (txtBlocks problems t).length)).sum
      < txtReportedTotal problems := by
  refine ⟨?_, rfl, ?_⟩
  · intro t ht hpin
    have hf := List.mem_filter.mp hpin
    exact htask (by rw [beq_iff_eq.mp hf.2]; exact ht)
  · have hsum : (taskOrder.map (fun t => (txtBlocks problems t).length)).sum
        = (problems.filter (fun x => decide (x.task ∈ taskOrder))).length := by
      calc (taskOrder.map (fun t => (txtBlocks problems t).length)).sum
          = (taskOrder.map
              (fun t => (problems.filter (fun x => x.task == t)).length)).sum := by
            refine congrArg List.sum (List.map_congr_left ?_)
            intro t _
            simp [txtBlocks, taskProblems]
        _ = _ := sum_length_filter_eq (fun x : ProblemRecord => x.task) taskOrder
              (by decide) problems
    rw [hsum]
    have hp : (fun x : ProblemRecord => decide (x.task ∈ taskOrder)) p = false := by
      simp [htask]
    exact length_filter_lt _ hmem hp

/-- Witness for C10 on a one-record registry whose task kind is
unrecognized. -/
theorem C10_unrecognized_task_omitted_witness :
    (∀ t ∈ taskOrder, oddTaskRecord ∉ taskProblems [oddTaskRecord] t) ∧
    txtReportedTotal [oddTaskRecord] = ([oddTaskRecord] : List ProblemRecord).length ∧
    (taskOrder.map (fun t => (txtBlocks [oddTaskRecord] t).length)).sum
      < txtReportedTotal [oddTaskRecord] :=
  C10_unrecognized_task_omitted [oddTaskRecord] oddTaskRecord (by decide) (by decide)
